import Mathlib

/-!
Verification of the rs1541 protocol layer against its specification.

Strings from the Rust sources are modelled as lists of byte values
(`List Nat`, each element a byte 0..255); all text handled by the claims
is ASCII, and character-class predicates are modelled on the ASCII range.
Diagnostic message strings carried inside error values are elided (the
error constructors keep only the fields the control flow inspects), since
no claim depends on message text.
-/

set_option maxRecDepth 10000

namespace Rs1541

/-! ### Byte-string helpers (ASCII model of Rust `str` operations) -/

/-- Rust `char::is_whitespace` restricted to the ASCII range (also the set
matched by the regex class `\s` on ASCII input): HT, LF, VT, FF, CR, space. -/
def isWhitespaceByte (b : Nat) : Bool :=
  b = 0x09 || b = 0x0A || b = 0x0B || b = 0x0C || b = 0x0D || b = 0x20

/-- ASCII digit `0`..`9` (regex `\d` on ASCII input). -/
def isDigitByte (b : Nat) : Bool := 0x30 ≤ b && b ≤ 0x39

/-- ASCII letter or digit (regex class `[a-zA-Z0-9]`). -/
def isAlnumByte (b : Nat) : Bool :=
  isDigitByte b || (0x41 ≤ b && b ≤ 0x5A) || (0x61 ≤ b && b ≤ 0x7A)

/-- Regex word character `\w` on ASCII input: alphanumeric or underscore. -/
def isWordByte (b : Nat) : Bool := isAlnumByte b || b = 0x5F

/-- Rust `str::trim_start` (ASCII model). -/
def trimLeft (l : List Nat) : List Nat := l.dropWhile isWhitespaceByte

/-- Rust `str::trim_end` (ASCII model). -/
def trimRight (l : List Nat) : List Nat :=
  (l.reverse.dropWhile isWhitespaceByte).reverse

/-- Rust `str::trim` (ASCII model). -/
def trim (l : List Nat) : List Nat := trimRight (trimLeft l)

/-- Rust `str::trim_end_matches('\n')`: drop every trailing LF byte. -/
def trimEndLF (l : List Nat) : List Nat :=
  (l.reverse.dropWhile (fun b => b = 0x0A)).reverse

/-- Rust `str::split(sep)` semantics: `n` separators yield `n + 1` pieces,
the empty string yields one empty piece. -/
def splitOnByte (sep : Nat) : List Nat → List (List Nat)
  | [] => [[]]
  | c :: rest =>
    match splitOnByte sep rest with
    | [] => [[]]
    | p :: ps => if c = sep then [] :: p :: ps else (c :: p) :: ps

/-- Numeric value of a list of ASCII digit bytes. -/
def digitsVal (l : List Nat) : Nat := l.foldl (fun acc b => acc * 10 + (b - 0x30)) 0

/-- Rust `str::parse::<u8>()`: optional leading `+`, then a non-empty run of
digits, value at most 255; anything else (including overflow) is an error. -/
def parseU8 (l : List Nat) : Option Nat :=
  let digits := match l with
    | 0x2B :: rest => rest
    | _ => l
  if digits.isEmpty then none
  else if digits.all isDigitByte then
    let v := digitsVal digits
    if v ≤ 255 then some v else none
  else none

/-- Rust `str::parse::<u16>()`: optional leading `+`, then a non-empty run of
digits, value at most 65535. -/
def parseU16 (l : List Nat) : Option Nat :=
  let digits := match l with
    | 0x2B :: rest => rest
    | _ => l
  if digits.isEmpty then none
  else if digits.all isDigitByte then
    let v := digitsVal digits
    if v ≤ 65535 then some v else none
  else none

/-! ### Error taxonomy (src/error.rs `CbmError` / the crate `Error` enum)

Message strings are elided; each constructor keeps the fields the code
matches on (device numbers, the carried `CbmStatus`). The `DeviceError`,
`StatusError` constructors correspond to the `Device`/`Status` classes
matched in `drive.rs`; `InvalidOperation` is the variant produced by
argument-validation failures in `cbm.rs`; `parse` is `Error::Parse`. -/

inductive CbmErrorNumber where
  | Ok
  | FilesScratched
  | ReadErrorBlockHeaderNotFound
  | ReadErrorNoSyncCharacter
  | ReadErrorDataBlockNotPresent
  | ReadErrorChecksumErrorInDataBlock
  | ReadErrorByteDecodingError
  | WriteErrorWriteVerifyError
  | WriteProtectOn
  | ReadErrorChecksumErrorInHeader
  | WriteErrorLongDataBlock
  | DiskIdMismatch
  | SyntaxErrorGeneralSyntax
  | SyntaxErrorInvalidCommand
  | SyntaxErrorLongLine
  | SyntaxErrorInValidFileName
  | SyntaxErrorNoFileGiven
  | SyntaxErrorInvalidCommandChannel15
  | RecordNotPresent
  | OverflowInRecord
  | FileTooLarge
  | WriteFileOpen
  | FileNotOpen
  | FileNotFound
  | FileExists
  | FileTypeMismatch
  | NoBlock
  | IllegalTrackAndSector
  | IllegalSystemTOrS
  | NoChannel
  | DirectoryError
  | DiskFull
  | DosMismatch
  | DriveNotReady
  | Unknown
  deriving DecidableEq, Repr

/-- `impl From<u8> for CbmErrorNumber` (src/cbmtype.rs). -/
def CbmErrorNumber.fromU8 (value : Nat) : CbmErrorNumber :=
  if value = 0 then .Ok
  else if value = 1 then .FilesScratched
  else if value = 20 then .ReadErrorBlockHeaderNotFound
  else if value = 21 then .ReadErrorNoSyncCharacter
  else if value = 22 then .ReadErrorDataBlockNotPresent
  else if value = 23 then .ReadErrorChecksumErrorInDataBlock
  else if value = 24 then .ReadErrorByteDecodingError
  else if value = 25 then .WriteErrorWriteVerifyError
  else if value = 26 then .WriteProtectOn
  else if value = 27 then .ReadErrorChecksumErrorInHeader
  else if value = 28 then .WriteErrorLongDataBlock
  else if value = 29 then .DiskIdMismatch
  else if value = 30 then .SyntaxErrorGeneralSyntax
  else if value = 31 then .SyntaxErrorInvalidCommand
  else if value = 32 then .SyntaxErrorLongLine
  else if value = 33 then .SyntaxErrorInValidFileName
  else if value = 34 then .SyntaxErrorNoFileGiven
  else if value = 39 then .SyntaxErrorInvalidCommandChannel15
  else if value = 50 then .RecordNotPresent
  else if value = 51 then .OverflowInRecord
  else if value = 52 then .FileTooLarge
  else if value = 60 then .WriteFileOpen
  else if value = 61 then .FileNotOpen
  else if value = 62 then .FileNotFound
  else if value = 63 then .FileExists
  else if value = 64 then .FileTypeMismatch
  else if value = 65 then .NoBlock
  else if value = 66 then .IllegalTrackAndSector
  else if value = 67 then .IllegalSystemTOrS
  else if value = 70 then .NoChannel
  else if value = 71 then .DirectoryError
  else if value = 72 then .DiskFull
  else if value = 73 then .DosMismatch
  else if value = 74 then .DriveNotReady
  else .Unknown

/-- `CbmErrorNumberOk` (src/cbmtype.rs): classification of a status. -/
inductive CbmErrorNumberOk where
  | Ok
  | Err
  | Number73
  deriving DecidableEq, Repr

/-- `CbmStatus` (src/cbmtype.rs). -/
structure CbmStatus where
  number : Nat
  error_number : CbmErrorNumber
  message : List Nat
  track : Nat
  sector : Nat
  device : Nat
  deriving DecidableEq, Repr

/-- The error enum, message strings elided (see module comment). -/
inductive CbmError where
  | DeviceError (device : Nat)
  | StatusError (status : CbmStatus)
  | InvalidOperation (device : Nat)
  | CommandError (device : Nat)
  | FileError (device : Nat)
  | UsbError
  | Validation
  | Parse
  | Timeout (device : Nat)
  | DriverNotOpen
  | Other
  deriving DecidableEq, Repr

/-! ### CbmStatus::new (src/cbmtype.rs lines 32-101) -/

/-- Strip everything from the first `\r` onward
(`status.find("\r")` / slice in `CbmStatus::new`). -/
def cleanStatus (status : List Nat) : List Nat :=
  match status.findIdx? (fun b => b = 0x0D) with
  | some pos => status.take pos
  | none => status

/-- The cleaning applied to the sector field of a status line:
`parts[3].trim().trim_end_matches('\n').trim()`. -/
def sectorField (part : List Nat) : List Nat := trim (trimEndLF (trim part))

/-- `CbmStatus::new` (src/cbmtype.rs): parse a raw status line. -/
def CbmStatus.new (status : List Nat) (device : Nat) : Except CbmError CbmStatus :=
  let clean := cleanStatus status
  if clean.length = 0 then .error .Parse
  else
    let parts := splitOnByte 0x2C clean
    if parts.length ≠ 4 then .error .Parse
    else
      match parseU8 (trim (parts.getD 0 [])) with
      | none => .error .Parse
      | some number =>
        let error_number := CbmErrorNumber.fromU8 number
        let message := trim (parts.getD 1 [])
        match parseU8 (trim (parts.getD 2 [])) with
        | none => .error .Parse
        | some track =>
          match parseU8 (sectorField (parts.getD 3 [])) with
          | none => .error .Parse
          | some sector =>
            .ok ⟨number, error_number, message, track, sector, device⟩

/-- `CbmStatus::is_ok` (src/cbmtype.rs lines 103-111). -/
def CbmStatus.is_ok (s : CbmStatus) : CbmErrorNumberOk :=
  if s.number < 20 then .Ok
  else if s.number = 73 then .Number73
  else .Err

/-- Modelled from the spec (section 3 "classification rule"), for comparison
with `CbmStatus.is_ok`: number<20 yields Ok; number==73 yields the tolerable
Number73 classification; otherwise Err. -/
def specStatusClassification (number : Nat) : CbmErrorNumberOk :=
  if number < 20 then .Ok
  else if number = 73 then .Number73
  else .Err

/-! ### CbmDeviceType and device identification (src/cbmtype.rs lines 214-343) -/

/-- `CbmDeviceType` (src/cbmtype.rs lines 267-286). -/
inductive CbmDeviceType where
  | Unknown
  | Cbm1540
  | Cbm1541
  | Cbm1570
  | Cbm1571
  | Cbm1581
  | Cbm2040
  | Cbm2031
  | Cbm3040
  | Cbm4040
  | Cbm4031
  | Cbm8050
  | Cbm8250
  | Sfd1001
  | FdX000
  deriving DecidableEq, Repr

/-- `impl From<CbmDeviceType> for i32` (src/cbmtype.rs lines 339-343):
`value as i32`, i.e. the `#[repr(i32)]` discriminant of the variant. -/
def CbmDeviceType.toI32 : CbmDeviceType → Int
  | .Unknown => -1
  | .Cbm1540 => 0
  | .Cbm1541 => 1
  | .Cbm1570 => 2
  | .Cbm1571 => 3
  | .Cbm1581 => 4
  | .Cbm2040 => 5
  | .Cbm2031 => 6
  | .Cbm3040 => 7
  | .Cbm4040 => 8
  | .Cbm4031 => 9
  | .Cbm8050 => 10
  | .Cbm8250 => 11
  | .Sfd1001 => 12
  | .FdX000 => 13

/-- `impl From<i32> for CbmDeviceType` (src/cbmtype.rs lines 316-337).
Note that the source maps 0 to `Cbm1541`, not `Cbm1540`. -/
def CbmDeviceType.fromI32 (value : Int) : CbmDeviceType :=
  if value = -1 then .Unknown
  else if value = 0 then .Cbm1541
  else if value = 1 then .Cbm1541
  else if value = 2 then .Cbm1570
  else if value = 3 then .Cbm1571
  else if value = 4 then .Cbm1581
  else if value = 5 then .Cbm2040
  else if value = 6 then .Cbm2031
  else if value = 7 then .Cbm3040
  else if value = 8 then .Cbm4040
  else if value = 9 then .Cbm4031
  else if value = 10 then .Cbm8050
  else if value = 11 then .Cbm8250
  else if value = 12 then .Sfd1001
  else if value = 13 then .FdX000
  else .Unknown

/-- The `device_type` component of `CbmDeviceInfo::from_magic`
(src/cbmtype.rs lines 215-264); the free-text `description` strings are
elided, as no claim depends on them. -/
def CbmDeviceInfo.from_magic (magic : Nat) (magic2 : Option Nat) : CbmDeviceType :=
  if magic = 0xfeb6 then .Cbm2031
  else if magic = 0xaaaa then
    match magic2 with
    | some m2 =>
      if m2 = 0x3156 then .Cbm1540
      else if m2 = 0xfeb6 then .Cbm2031
      else .Cbm1541
    | none => .Cbm1541
  else if magic = 0xf00f then .Cbm1541
  else if magic = 0xcd18 then .Cbm1541
  else if magic = 0x10ca then .Cbm1541
  else if magic = 0x6f10 then .Cbm1541
  else if magic = 0x2710 then .Cbm1541
  else if magic = 0x8085 then .Cbm1541
  else if magic = 0xaeea then .Cbm1541
  else if magic = 0x180d then .Cbm1541
  else if magic = 0x094c then .Cbm1541
  else if magic = 0xfed7 then .Cbm1570
  else if magic = 0x02ac then .Cbm1571
  else if magic = 0x01ba then
    match magic2 with
    | some m2 => if m2 = 0x4446 then .FdX000 else .Cbm1581
    | none => .Cbm1581
  else if magic = 0x32f0 then .Cbm3040
  else if magic = 0xc320 ∨ magic = 0x20f8 then .Cbm4040
  else if magic = 0xf2e9 then .Cbm8050
  else if magic = 0xc866 ∨ magic = 0xc611 then .Cbm8250
  else .Unknown

/-! ### PETSCII / ASCII codec (src/string.rs lines 271-299, src/util.rs) -/

/-- `petscii_to_ascii` (src/string.rs lines 271-288): the resulting `char`
is always ASCII, so it is modelled directly as its byte value. -/
def petscii_to_ascii (character : Nat) : Nat :=
  if character = 0x0a ∨ character = 0x0d then 0x0A
  else if character = 0x40 ∨ character = 0x60 then character
  else if character = 0xa0 ∨ character = 0xe0 then 0x20
  else if character.land 0xe0 = 0x40 ∨ character.land 0xe0 = 0x60 then
    character.xor 0x20
  else if character.land 0xe0 = 0xc0 then character.xor 0x80
  else if character < 0x80 ∧ 0x21 ≤ character ∧ character ≤ 0x7E then character
  else 0x2E

/-- `ascii_to_petscii` (src/string.rs lines 290-299); inputs come from an
`AsciiString` and are bytes below 0x80. -/
def ascii_to_petscii (character : Nat) : Nat :=
  if 0x5b ≤ character ∧ character ≤ 0x7e then character.xor 0x20
  else if 0x41 ≤ character ∧ character ≤ 0x5A then character.lor 0x80
  else character

/-- `AsciiString::to_petscii` (src/string.rs lines 109-116): byte-wise map. -/
def AsciiString.to_petscii (s : List Nat) : List Nat := s.map ascii_to_petscii

/-- `PetsciiString::to_ascii` (src/string.rs lines 78-81): byte-wise map. -/
def PetsciiString.to_ascii (s : List Nat) : List Nat := s.map petscii_to_ascii

/-! ### Channel manager (src/channel.rs) -/

/-- `CbmChannelPurpose` (src/channel.rs). -/
inductive CbmChannelPurpose where
  | Reset
  | Directory
  | FileRead
  | FileWrite
  | Command
  deriving DecidableEq, Repr

/-- `CbmChannel` (src/channel.rs): an allocation record. -/
structure CbmChannel where
  number : Nat
  purpose : CbmChannelPurpose
  deriving DecidableEq, Repr

/-- `CbmChannelManager` state: slot `i` of the list is the entry for
channel `i` of the `HashMap` (whose key set is always `0..=15`). -/
abbrev ChannelState : Type := List (Option CbmChannel)

/-- `CbmChannelManager::new` (src/channel.rs): all 16 channels free. -/
def ChannelState.new : ChannelState := List.replicate 16 none

/-- The `for i in 0..15` scan of `CbmChannelManager::allocate`: the first
listed channel whose slot exists (`get_mut` succeeds) and is free gets
allocated; occupied or missing slots are skipped. -/
def allocateScan (purpose : CbmChannelPurpose) :
    List Nat → ChannelState → Option Nat × ChannelState
  | [], m => (none, m)
  | i :: is, m =>
    if m[i]? = some none then (some i, m.set i (some ⟨i, purpose⟩))
    else allocateScan purpose is m

/-- `CbmChannelManager::allocate` (src/channel.rs lines 56-91). -/
def allocate (m : ChannelState) (purpose : CbmChannelPurpose) :
    Option Nat × ChannelState :=
  if purpose = .Reset then
    if m[15]? = some none then (some 15, m.set 15 (some ⟨15, purpose⟩))
    else (none, m)
  else
    allocateScan purpose (List.range 15) m

/-- `CbmChannelManager::reset` (src/channel.rs lines 93-97). -/
def ChannelState.reset (_m : ChannelState) : ChannelState := ChannelState.new

/-- Run a sequence of `allocate` calls (no intervening `reset`), collecting
each returned channel. -/
def runAllocs : ChannelState → List CbmChannelPurpose → List (Option Nat) × ChannelState
  | m, [] => ([], m)
  | m, p :: ps =>
    let r := allocate m p
    let rest := runAllocs r.2 ps
    (r.1 :: rest.1, rest.2)

/-! ### Directory listings (src/disk.rs)

The three regular expressions of `CbmDirListing` are simple enough that
greedy matching is deterministic (each repeated class is disjoint from
what follows it), so they are modelled as first-match scanners. -/

/-- `CbmFileType` (src/disk.rs). -/
inductive CbmFileType where
  | PRG
  | SEQ
  | USR
  | REL
  | Unknown
  deriving DecidableEq, Repr

/-- ASCII uppercase of a byte (Rust `str::to_uppercase` on ASCII input). -/
def upperByte (b : Nat) : Nat :=
  if 0x61 ≤ b ∧ b ≤ 0x7A then b - 0x20 else b

/-- `impl From<&str> for CbmFileType` (src/disk.rs lines 46-56). -/
def CbmFileType.fromStr (s : List Nat) : CbmFileType :=
  let u := s.map upperByte
  if u = [0x50, 0x52, 0x47] then .PRG
  else if u = [0x53, 0x45, 0x51] then .SEQ
  else if u = [0x55, 0x53, 0x52] then .USR
  else if u = [0x52, 0x45, 0x4C] then .REL
  else .Unknown

/-- The two `error` description strings an `InValidFile` entry can carry
(src/disk.rs lines 412-444): "Invalid block count" and
"Could not parse line format". -/
inductive FileEntryError where
  | InvalidBlockCount
  | CouldNotParseLineFormat
  deriving DecidableEq, Repr

/-- `CbmFileEntry` (src/disk.rs lines 100-133); the `partial_blocks` /
`partial_filename` salvage fields are named `partBlocks`/`partFilename`
here. -/
inductive CbmFileEntry where
  | ValidFile (blocks : Nat) (filename : List Nat) (file_type : CbmFileType)
  | inValidFile (raw_line : List Nat) (error : FileEntryError)
      (partBlocks : Option Nat) (partFilename : Option (List Nat))
  deriving DecidableEq, Repr

/-- `CbmDiskHeader` (src/disk.rs). -/
structure CbmDiskHeader where
  drive_number : Nat
  name : List Nat
  id : List Nat
  deriving DecidableEq, Repr

/-- `CbmDirListing` (src/disk.rs). -/
structure CbmDirListing where
  header : CbmDiskHeader
  files : List CbmFileEntry
  blocks_free : Nat
  deriving DecidableEq, Repr

/-- Match of the header regex `^\s*(\d+)\s+\."([^"]*)" ([a-zA-Z0-9]{2})`
against a line, returning the three captures (digits, name, id). -/
def headerMatch (line : List Nat) : Option (List Nat × List Nat × List Nat) :=
  let r1 := line.dropWhile isWhitespaceByte
  let ds := r1.takeWhile isDigitByte
  if ds.isEmpty then none
  else
    let r2 := r1.drop ds.length
    let sp := r2.takeWhile isWhitespaceByte
    if sp.isEmpty then none
    else
      match r2.drop sp.length with
      | 0x2E :: 0x22 :: r4 =>
        let name := r4.takeWhile (fun b => b ≠ 0x22)
        (match r4.drop name.length with
         | 0x22 :: 0x20 :: a :: b :: _ =>
           if isAlnumByte a ∧ isAlnumByte b then some (ds, name, [a, b]) else none
         | _ => none)
      | _ => none

/-- `CbmDirListing::parse_header` (src/disk.rs lines 390-410). -/
def parse_header (line : List Nat) : Except CbmError CbmDiskHeader :=
  match headerMatch line with
  | none => .error .Parse
  | some (ds, name, id) =>
    match parseU8 ds with
    | none => .error .Parse
    | some n => .ok ⟨n, trimRight name, id⟩

/-- Match of the file-entry regex `^\s*(\d+)\s+"([^"]+)"\s+(\w+)\s*$`
against a line, returning the three captures (digits, filename, type word). -/
def fileEntryMatch (line : List Nat) : Option (List Nat × List Nat × List Nat) :=
  let r1 := line.dropWhile isWhitespaceByte
  let ds := r1.takeWhile isDigitByte
  if ds.isEmpty then none
  else
    let r2 := r1.drop ds.length
    let sp := r2.takeWhile isWhitespaceByte
    if sp.isEmpty then none
    else
      match r2.drop sp.length with
      | 0x22 :: r4 =>
        let name := r4.takeWhile (fun b => b ≠ 0x22)
        if name.isEmpty then none
        else
          (match r4.drop name.length with
           | 0x22 :: r6 =>
             let sp2 := r6.takeWhile isWhitespaceByte
             if sp2.isEmpty then none
             else
               let r7 := r6.drop sp2.length
               let w := r7.takeWhile isWordByte
               if w.isEmpty then none
               else if (r7.drop w.length).all isWhitespaceByte then
                 some (ds, name, w)
               else none
           | _ => none)
      | _ => none

/-- `CbmDirListing::parse_file_entry` (src/disk.rs lines 412-444): total,
malformed lines are salvaged into `inValidFile` entries. -/
def parse_file_entry (line : List Nat) : CbmFileEntry :=
  match fileEntryMatch line with
  | some (ds, name, w) =>
    (match parseU16 (trim ds) with
     | none => .inValidFile line .InvalidBlockCount none (some name)
     | some blocks => .ValidFile blocks name (CbmFileType.fromStr w))
  | none => .inValidFile line .CouldNotParseLineFormat none none

/-- The byte string "blocks free". -/
def blocksFreeBytes : List Nat :=
  [0x62, 0x6C, 0x6F, 0x63, 0x6B, 0x73, 0x20, 0x66, 0x72, 0x65, 0x65]

/-- Rust `str::contains("blocks free")`. -/
def containsBlocksFree (line : List Nat) : Bool :=
  line.tails.any (fun t => blocksFreeBytes.isPrefixOf t)

/-- Match of the blocks-free regex `^\s*(\d+)\s+blocks free`, returning the
digits capture. -/
def blocksFreeMatch (line : List Nat) : Option (List Nat) :=
  let r1 := line.dropWhile isWhitespaceByte
  let ds := r1.takeWhile isDigitByte
  if ds.isEmpty then none
  else
    let r2 := r1.drop ds.length
    let sp := r2.takeWhile isWhitespaceByte
    if sp.isEmpty then none
    else if blocksFreeBytes.isPrefixOf (r2.drop sp.length) then some ds
    else none

/-- `CbmDirListing::parse_blocks_free` (src/disk.rs lines 446-458). -/
def parse_blocks_free (line : List Nat) : Except CbmError Nat :=
  match blocksFreeMatch line with
  | none => .error .Parse
  | some ds =>
    match parseU16 ds with
    | none => .error .Parse
    | some n => .ok n

/-- Strip one trailing `\r` from a line (Rust `str::lines`). -/
def stripCR (l : List Nat) : List Nat :=
  if l.getLast? = some 0x0D then l.dropLast else l

/-- Rust `str::lines`: split on LF, dropping a final empty piece, and strip
one trailing CR from each line. -/
def linesOf (l : List Nat) : List (List Nat) :=
  let ps := splitOnByte 0x0A l
  (if ps.getLast? = some [] then ps.dropLast else ps).map stripCR

/-- The `for line in lines` loop of `CbmDirListing::parse`: push file
entries until a line containing "blocks free" is parsed (`ok (some ...)`),
propagating its parse failure; `ok none` means no such line was found. -/
def parseLoop : List (List Nat) → List CbmFileEntry →
    Except CbmError (Option (List CbmFileEntry × Nat))
  | [], _acc => .ok none
  | l :: ls, acc =>
    if containsBlocksFree l then
      match parse_blocks_free l with
      | .error e => .error e
      | .ok n => .ok (some (acc, n))
    else parseLoop ls (acc ++ [parse_file_entry l])

/-- `CbmDirListing::parse` (src/disk.rs lines 350-388). -/
def CbmDirListing.parse (input : List Nat) : Except CbmError CbmDirListing :=
  match linesOf input with
  | [] => .error .Parse
  | first :: rest =>
    match parse_header first with
    | .error e => .error e
    | .ok header =>
      match parseLoop rest [] with
      | .error e => .error e
      | .ok none => .error .Parse
      | .ok (some (files, blocks_free)) => .ok ⟨header, files, blocks_free⟩

/-! ### Bus-transaction traces (src/cbm.rs)

The xum1541 transport is external; each primitive bus verb the
orchestrator invokes is recorded as one event, so an operation denotes
the list of bus events it issues (its success path). The status line is
read with the distinct primitive `read_until` (used only by
`get_status_already_locked`), so a status read is recognisable in a trace
as a `readUntil` event. -/

inductive BusEvent where
  | listen (device channel : Nat)
  | write (bytes : List Nat)
  | unlisten
  | talk (device channel : Nat)
  | readBytes (n : Nat)
  | untalk
  | readUntil (maxBytes : Nat) (terminator : Nat)
  | openChannel (device channel : Nat)
  | closeChannel (device channel : Nat)
  deriving DecidableEq, Repr

/-- A status read is the `read_until` primitive, issued only by
`get_status_already_locked` (src/cbm.rs lines 1002-1024). -/
def BusEvent.isStatusRead : BusEvent → Bool
  | .readUntil _ _ => true
  | _ => false

/-- `Cbm::send_command_petscii` (src/cbm.rs lines 416-427):
listen on channel 15, write the command bytes, unlisten. -/
def sendCommandPetsciiTrace (device : Nat) (cmd : List Nat) : List BusEvent :=
  [.listen device 15, .write cmd, .unlisten]

/-- `Cbm::get_status_already_locked` (src/cbm.rs lines 1002-1024):
talk on channel 15, read up to 64 bytes until `\r`, untalk. -/
def getStatusTrace (device : Nat) : List BusEvent :=
  [.talk device 15, .readUntil 64 0x0D, .untalk]

/-- The `M-R` command bytes sent for byte `i` of a peek at `addr`
(src/cbm.rs line 320): `addr` is split into low/high bytes and the low
byte is advanced with `wrapping_add`. -/
def memReadCmd (addr i : Nat) : List Nat :=
  [0x4D, 0x2D, 0x52, (addr % 256 + i % 256) % 256, addr / 256 % 256]

/-- `Cbm::read_drive_memory` (src/cbm.rs lines 306-336), as the bus events
of its success path: per byte, send the `M-R` command, then talk on
channel 15, read one byte, untalk. No status read occurs. -/
def readDriveMemoryTrace (device addr size : Nat) : List BusEvent :=
  (List.range size).flatMap (fun i =>
    sendCommandPetsciiTrace device (memReadCmd addr i)
      ++ [.talk device 15, .readBytes 1, .untalk])

/-- The bytes `Cbm::read_drive_memory` returns, with the drive memory
modelled as an oracle `mem` from absolute address to byte value. -/
def readDriveMemoryBytes (mem : Nat → Nat) (addr size : Nat) : List Nat :=
  (List.range size).map (fun i =>
    mem (addr / 256 % 256 * 256 + (addr % 256 + i % 256) % 256) % 256)

/-- The 16-bit magic assembled from a two-byte peek buffer
(src/cbm.rs line 279): `(buf[1] << 8) | buf[0]`. -/
def magicOf (buf : List Nat) : Nat := buf.getD 1 0 * 256 + buf.getD 0 0

/-- `Cbm::identify` (src/cbm.rs lines 274-302), as its bus-event trace:
peek 2 bytes at 0xff40; on magic 0xaaaa peek 0xfffe, on 0x01ba peek
0x8008; no further bus traffic. -/
def identifyTrace (mem : Nat → Nat) (device : Nat) : List BusEvent :=
  let magic := magicOf (readDriveMemoryBytes mem 0xff40 2)
  readDriveMemoryTrace device 0xff40 2
    ++ (if magic = 0xaaaa then readDriveMemoryTrace device 0xfffe 2
        else if magic = 0x01ba then readDriveMemoryTrace device 0x8008 2
        else [])

/-- The device type `Cbm::identify` derives from the drive memory oracle
(src/cbm.rs lines 274-302). -/
def identifyDeviceType (mem : Nat → Nat) : CbmDeviceType :=
  let magic := magicOf (readDriveMemoryBytes mem 0xff40 2)
  if magic = 0xaaaa then
    CbmDeviceInfo.from_magic (magicOf (readDriveMemoryBytes mem 0xfffe 2)) none
  else if magic = 0x01ba then
    CbmDeviceInfo.from_magic magic (some (magicOf (readDriveMemoryBytes mem 0x8008 2)))
  else CbmDeviceInfo.from_magic magic none

/-- `Cbm::format_disk` (src/cbm.rs lines 486-505). The outcome of the two
bus interactions is supplied by oracles: `sendResult` for
`send_string_command_ascii` and `statusResult` for `get_status`. Returns
the call result together with the bus events issued. -/
def format_disk (device : Nat) (name id : List Nat)
    (sendResult : Except CbmError Unit)
    (statusResult : Except CbmError CbmStatus) :
    Except CbmError CbmStatus × List BusEvent :=
  if id.length ≠ 2 then (.error (.InvalidOperation device), [])
  else
    let cmd := [0x6E, 0x30, 0x3A] ++ name ++ [0x2C] ++ id
    if cmd.all (fun b => b < 0x80) then
      match sendResult with
      | .error e => (.error e, sendCommandPetsciiTrace device (cmd.map ascii_to_petscii))
      | .ok _ =>
        (statusResult,
         sendCommandPetsciiTrace device (cmd.map ascii_to_petscii) ++ getStatusTrace device)
    else (.error (.InvalidOperation device), [])

/-! ### CbmDriveUnit::dir (src/drive.rs lines 290-337)

`cbm.dir` on a sub-drive is abstracted as an oracle from the passed
drive-number argument to its outcome, and the trailing
`cbm.get_status` as an outcome oracle. -/

/-- The `for ii in self.num_disk_drives_iter()` loop of
`CbmDriveUnit::dir`: a `Device`-class error is skipped, a `Status`-class
error overwrites the remembered status and is skipped, any other error
aborts, a listing is accumulated. -/
def dirLoop (dirResult : Option Nat → Except CbmError CbmDirListing) (single : Bool) :
    List Nat → List CbmDirListing → Option CbmStatus →
    Except CbmError (List CbmDirListing × Option CbmStatus)
  | [], results, errSt => .ok (results, errSt)
  | ii :: rest, results, errSt =>
    match dirResult (if single then none else some ii) with
    | .error (.DeviceError _) => dirLoop dirResult single rest results errSt
    | .error (.StatusError st) => dirLoop dirResult single rest results (some st)
    | .error e => .error e
    | .ok r => dirLoop dirResult single rest (results ++ [r]) errSt

/-- `CbmDriveUnit::dir` (src/drive.rs lines 290-337). `numDrives` is
`self.num_disk_drives()`. Note `error_status.unwrap_or(cbm.get_status(..)?)`
evaluates `get_status` (and propagates its failure) even when a status
error was remembered. -/
def CbmDriveUnit.dir (numDrives : Nat)
    (dirResult : Option Nat → Except CbmError CbmDirListing)
    (finalStatus : Except CbmError CbmStatus) :
    Except CbmError (List CbmDirListing × CbmStatus) :=
  let single := numDrives = 1
  match dirLoop dirResult single (List.range numDrives) [] none with
  | .error e => .error e
  | .ok (results, errSt) =>
    match finalStatus with
    | .error e => .error e
    | .ok fs => .ok (results, errSt.getD fs)

deriving instance DecidableEq for Except

/-! ### Concrete inputs used by witnesses and counterexamples -/

/-- Byte values of a list of ASCII characters. -/
def bytesOf (s : List Char) : List Nat := s.map Char.toNat

/-- The status line `21,READ ERROR,18,04` of the repository tests. -/
def statusLine21 : List Nat :=
  bytesOf ['2', '1', ',', 'R', 'E', 'A', 'D', ' ', 'E', 'R', 'R', 'O', 'R',
           ',', '1', '8', ',', '0', '4']

/-- The status line `00,OK,00,00`. -/
def statusLineOk : List Nat :=
  bytesOf ['0', '0', ',', 'O', 'K', ',', '0', '0', ',', '0', '0']

/-- A status line `99,WEIRD,01,02` whose error code 99 is unrecognized. -/
def statusLine99 : List Nat :=
  bytesOf ['9', '9', ',', 'W', 'E', 'I', 'R', 'D', ',', '0', '1', ',', '0', '2']

/-- The bytes of `HELLO`. -/
def helloBytes : List Nat := bytesOf ['H', 'E', 'L', 'L', 'O']

/-- A directory listing whose header and blocks-free lines are both present
and well-formed except that the free-block count 70000 overflows `u16`:
`0 ."disk" 01` then `70000 blocks free.` -/
def dirOverflowInput : List Nat :=
  bytesOf ['0', ' ', '.', '"', 'd', 'i', 's', 'k', '"', ' ', '0', '1', '\n',
           '7', '0', '0', '0', '0', ' ', 'b', 'l', 'o', 'c', 'k', 's', ' ',
           'f', 'r', 'e', 'e', '.']

/-- A directory listing with one malformed file line:
`0 ."disk" 01`, `bad line`, `10 "PROG" prg`, `664 blocks free.` -/
def dirGoodInput : List Nat :=
  bytesOf ['0', ' ', '.', '"', 'd', 'i', 's', 'k', '"', ' ', '0', '1', '\n',
           'b', 'a', 'd', ' ', 'l', 'i', 'n', 'e', '\n',
           '1', '0', ' ', '"', 'P', 'R', 'O', 'G', '"', ' ', 'p', 'r', 'g', '\n',
           '6', '6', '4', ' ', 'b', 'l', 'o', 'c', 'k', 's', ' ',
           'f', 'r', 'e', 'e', '.', '\n']

/-- The header line `0 ."disk" 01` of the directory inputs above. -/
def dirHeaderLine : List Nat :=
  bytesOf ['0', ' ', '.', '"', 'd', 'i', 's', 'k', '"', ' ', '0', '1']

/-- The overflowing free-block line `70000 blocks free.`. -/
def dirOverflowBlocksLine : List Nat :=
  bytesOf ['7', '0', '0', '0', '0', ' ', 'b', 'l', 'o', 'c', 'k', 's', ' ',
           'f', 'r', 'e', 'e', '.']

/-- The malformed file line `bad line` of `dirGoodInput`. -/
def dirBadLine : List Nat := bytesOf ['b', 'a', 'd', ' ', 'l', 'i', 'n', 'e']

/-- The file line `10 "PROG" prg` of `dirGoodInput`. -/
def dirProgLine : List Nat :=
  bytesOf ['1', '0', ' ', '"', 'P', 'R', 'O', 'G', '"', ' ', 'p', 'r', 'g']

/-- The free-block line `664 blocks free.` of `dirGoodInput`. -/
def dirBlocksLine : List Nat :=
  bytesOf ['6', '6', '4', ' ', 'b', 'l', 'o', 'c', 'k', 's', ' ',
           'f', 'r', 'e', 'e', '.']

/-- A status whose number is 74 (drive not ready), as returned by the first
sub-drive in the C8 scenario. -/
def statusNum74 : CbmStatus := ⟨74, .DriveNotReady, [], 0, 0, 8⟩

/-- A status whose number is 62 (file not found), as returned by the second
sub-drive in the C8 scenario. -/
def statusNum62 : CbmStatus := ⟨62, .FileNotFound, [], 0, 0, 8⟩

/-- An OK status for the final status check in the C8 scenario. -/
def statusNumOk : CbmStatus := ⟨0, .Ok, [], 0, 0, 8⟩

/-- Sub-drive outcome oracle for the C8 scenario: drive 0 fails with the
status error 74, drive 1 fails with the status error 62. -/
def dirOracleC8 (a : Option Nat) : Except CbmError CbmDirListing :=
  if a = some 0 then .error (.StatusError statusNum74)
  else .error (.StatusError statusNum62)

/-! ## Theorems -/

/-! ### C2: status classification -/

/-- C2: for every successfully parsed `CbmStatus`, `is_ok` agrees with the
spec classification rule (number<20 yields Ok, number==73 yields Number73,
otherwise Err), and the classification depends only on the parsed status
number. -/
theorem C2_is_ok_classification :
    ∀ (status : List Nat) (device : Nat) (st : CbmStatus),
      CbmStatus.new status device = .ok st →
      st.is_ok = specStatusClassification st.number ∧
      ∀ st2 : CbmStatus, st2.number = st.number → st2.is_ok = st.is_ok := by
  intro status device st _h
  constructor
  · rfl
  · intro st2 h2
    simp [CbmStatus.is_ok, h2]

/-- Claim C2 witness: the repository test line `21,READ ERROR,18,04` parses
and its classification agrees with the spec rule (and is Err). -/
theorem C2_is_ok_classification_witness :
    CbmStatus.is_ok ⟨21, .ReadErrorNoSyncCharacter,
      bytesOf ['R', 'E', 'A', 'D', ' ', 'E', 'R', 'R', 'O', 'R'], 18, 4, 8⟩ =
      specStatusClassification 21 ∧
    specStatusClassification 21 = .Err :=
  ⟨(C2_is_ok_classification statusLine21 8 _ (by decide)).1, by decide⟩

/-! ### C3: ASCII to PETSCII round trip (corrected) -/

/-- Claim C3 counterexample: the printable ASCII bytes space (0x20) and
backtick (0x60) do not survive the `to_petscii().to_ascii()` round trip:
space becomes a dot (0x2E) and backtick becomes an at sign (0x40), so the
round trip is not lossless on every printable-ASCII string. -/
theorem C3_roundtrip_counterexample :
    PetsciiString.to_ascii (AsciiString.to_petscii [0x20]) = [0x2E] ∧
    PetsciiString.to_ascii (AsciiString.to_petscii [0x60]) = [0x40] ∧
    0x20 ≤ 0x20 ∧ (0x20 : Nat) ≤ 0x7E ∧ 0x20 ≤ 0x60 ∧ (0x60 : Nat) ≤ 0x7E ∧
    ([0x2E] : List Nat) ≠ [0x20] ∧ ([0x40] : List Nat) ≠ [0x60] := by
  decide

/-- Each printable ASCII byte other than space and backtick survives the
PETSCII round trip. -/
theorem roundtrip_byte (b : Nat) (h1 : 0x21 ≤ b) (h2 : b ≤ 0x7E) (h3 : b ≠ 0x60) :
    petscii_to_ascii (ascii_to_petscii b) = b := by
  have h : ∀ c : Nat, c < 0x7F → 0x21 ≤ c → c ≠ 0x60 →
      petscii_to_ascii (ascii_to_petscii c) = c := by decide
  exact h b (Nat.lt_succ_of_le h2) h1 h3

/-- C3 (amended): for every byte sequence whose bytes are printable ASCII
other than space (0x20) and backtick (0x60), converting with
`to_petscii()` and then `to_ascii()` yields the original sequence; space
decodes to a dot and backtick to an at sign, as shown by the
counterexample. -/
theorem C3_roundtrip_amended :
    ∀ s : List Nat, (∀ b ∈ s, 0x21 ≤ b ∧ b ≤ 0x7E ∧ b ≠ 0x60) →
      PetsciiString.to_ascii (AsciiString.to_petscii s) = s := by
  intro s h
  induction s with
  | nil => rfl
  | cons b rest ih =>
    have hb := h b (List.mem_cons_self b rest)
    have hrest : ∀ x ∈ rest, 0x21 ≤ x ∧ x ≤ 0x7E ∧ x ≠ 0x60 :=
      fun x hx => h x (List.mem_cons_of_mem b hx)
    have h2 := ih hrest
    simp only [AsciiString.to_petscii, PetsciiString.to_ascii, List.map_cons] at h2 ⊢
    rw [roundtrip_byte b hb.1 hb.2.1 hb.2.2, h2]

/-- Claim C3 witness: the round trip is the identity on `HELLO`. -/
theorem C3_roundtrip_amended_witness :
    PetsciiString.to_ascii (AsciiString.to_petscii helloBytes) = helloBytes :=
  C3_roundtrip_amended helloBytes (by decide)

/-! ### C4: device identification from magic signatures -/

/-- C4: device identification is a deterministic function of the signature
values: 0xAAAA with no second read maps to the 1541 type; 0x01BA with
second read 0x4446 maps to the FD series; 0x01BA with any other (or no)
second read maps to the 1581. -/
theorem C4_from_magic_determinism :
    CbmDeviceInfo.from_magic 0xaaaa none = .Cbm1541 ∧
    CbmDeviceInfo.from_magic 0x01ba (some 0x4446) = .FdX000 ∧
    ∀ magic2 : Option Nat, magic2 ≠ some 0x4446 →
      CbmDeviceInfo.from_magic 0x01ba magic2 = .Cbm1581 := by
  refine ⟨by decide, by decide, ?_⟩
  intro magic2 h
  cases magic2 with
  | none => decide
  | some m2 =>
    have hm2 : m2 ≠ 0x4446 := by
      intro hc; exact h (by rw [hc])
    simp only [CbmDeviceInfo.from_magic]
    norm_num
    intro hc
    exact absurd hc hm2

/-- Claim C4 witness: a second read of 0x9999 against first signature
0x01BA yields the 1581 type. -/
theorem C4_from_magic_determinism_witness :
    CbmDeviceInfo.from_magic 0x01ba (some 0x9999) = .Cbm1581 :=
  C4_from_magic_determinism.2.2 (some 0x9999) (by decide)

/-! ### C10: i32 round trip of CbmDeviceType -/

/-- C10: converting a `CbmDeviceType` to its i32 representation and back is
the identity on every variant except `Cbm1540`, which converts to 0 and
comes back as `Cbm1541`. -/
theorem C10_device_type_i32_roundtrip :
    (∀ t : CbmDeviceType, t ≠ .Cbm1540 →
      CbmDeviceType.fromI32 (CbmDeviceType.toI32 t) = t) ∧
    CbmDeviceType.toI32 .Cbm1540 = 0 ∧
    CbmDeviceType.fromI32 (CbmDeviceType.toI32 .Cbm1540) = .Cbm1541 := by
  refine ⟨?_, by decide, by decide⟩
  intro t ht
  cases t <;> first | exact absurd rfl ht | decide

/-- Claim C10 witness: `Unknown` (i32 value -1) and `FdX000` (i32 value 13)
round-trip to themselves. -/
theorem C10_device_type_i32_roundtrip_witness :
    CbmDeviceType.fromI32 (CbmDeviceType.toI32 .Unknown) = .Unknown ∧
    CbmDeviceType.fromI32 (CbmDeviceType.toI32 .FdX000) = .FdX000 :=
  ⟨C10_device_type_i32_roundtrip.1 .Unknown (by decide),
   C10_device_type_i32_roundtrip.1 .FdX000 (by decide)⟩

/-! ### C5: status read after memory peeks (corrected)

In this code neither `read_drive_memory` nor `identify` performs any
status read: the peek loop issues only the `M-R` command write and a
talk/read/untalk on channel 15, and `identify` only chains such peeks. -/

/-- No event of a `read_drive_memory` trace is a status read. -/
theorem readDriveMemory_no_status_read (device addr size : Nat) :
    ∀ e ∈ readDriveMemoryTrace device addr size, e.isStatusRead = false := by
  intro e he
  rw [readDriveMemoryTrace, List.mem_flatMap] at he
  obtain ⟨i, _, hmem⟩ := he
  simp only [sendCommandPetsciiTrace, List.cons_append, List.nil_append,
    List.mem_cons, List.not_mem_nil, or_false] at hmem
  rcases hmem with h | h | h | h | h | h <;> subst h <;> rfl

/-- Claim C5 counterexample: the claim requires every memory-peek sequence
to be followed, within the same operation, by a status read; but the bus
traces of `read_drive_memory(8, 0xff40, 2)` and of `identify(8)` (against
a drive whose memory reads all return 0xAA, so that the second peek is
also taken) contain no status read at all. -/
theorem C5_peek_status_counterexample :
    ((readDriveMemoryTrace 8 0xff40 2).any BusEvent.isStatusRead = false) ∧
    ((identifyTrace (fun _ => 0xaa) 8).any BusEvent.isStatusRead = false) := by
  decide

/-- C5 (amended): no status read follows a memory-peek sequence: for every
device, address and byte count, the bus trace of `read_drive_memory`
contains no status read (it is, per byte, just the `M-R` command write
followed by talk/read/untalk on channel 15), and for every drive-memory
oracle the bus trace of `identify` contains no status read either; so no
expected status-read failure is absorbed inside these operations. -/
theorem C5_no_status_read_amended :
    ∀ (device addr size : Nat) (mem : Nat → Nat),
      (∀ e ∈ readDriveMemoryTrace device addr size, e.isStatusRead = false) ∧
      (∀ e ∈ identifyTrace mem device, e.isStatusRead = false) := by
  intro device addr size mem
  refine ⟨readDriveMemory_no_status_read device addr size, ?_⟩
  intro e he
  rw [identifyTrace, List.mem_append] at he
  rcases he with he | he
  · exact readDriveMemory_no_status_read device 0xff40 2 e he
  · split at he
    · exact readDriveMemory_no_status_read device 0xfffe 2 e he
    · split at he
      · exact readDriveMemory_no_status_read device 0x8008 2 e he
      · exact absurd he (List.not_mem_nil e)

/-- Claim C5 witness: the talk event of the first peek of
`read_drive_memory(8, 0xff40, 2)` is not a status read. -/
theorem C5_no_status_read_amended_witness :
    BusEvent.isStatusRead (BusEvent.talk 8 15) = false :=
  (C5_no_status_read_amended 8 0xff40 2 (fun _ => 0)).1
    (BusEvent.talk 8 15) (by decide)

/-! ### C7: format_disk validation -/

/-- C7: `format_disk` with an id whose length is not 2 fails immediately
with the argument-validation error (`InvalidOperation`, the variant the
spec's taxonomy classes as a Validation error) and issues no bus event;
with a 2-character ASCII id and name it sends the PETSCII encoding of
`n0:<name>,<id>` on the control channel (listen 15 / write / unlisten)
and returns the outcome of the subsequent status read. -/
theorem C7_format_disk_validation :
    ∀ (device : Nat) (name id : List Nat) (sendResult : Except CbmError Unit)
      (statusResult : Except CbmError CbmStatus),
      (id.length ≠ 2 →
        format_disk device name id sendResult statusResult =
          (.error (.InvalidOperation device), [])) ∧
      (id.length = 2 →
        (([0x6E, 0x30, 0x3A] ++ name ++ [0x2C] ++ id).all (fun b => b < 0x80)) →
        sendResult = .ok () →
        format_disk device name id sendResult statusResult =
          (statusResult,
           sendCommandPetsciiTrace device
             ((([0x6E, 0x30, 0x3A] ++ name ++ [0x2C] ++ id).map ascii_to_petscii))
             ++ getStatusTrace device)) := by
  intro device name id sendResult statusResult
  constructor
  · intro hlen
    simp [format_disk, hlen]
  · intro hlen hascii hsend
    subst hsend
    unfold format_disk
    rw [if_neg (by omega)]
    rw [if_pos hascii]

/-- Claim C7 witness: with name `TEST` and the 1-character id `1` the call
fails with the validation error and no bus traffic; with the 2-character
id `01` it sends the command and returns the status outcome. -/
theorem C7_format_disk_validation_witness :
    format_disk 8 (bytesOf ['T', 'E', 'S', 'T']) (bytesOf ['1'])
        (.ok ()) (.ok statusNumOk) = (.error (.InvalidOperation 8), []) ∧
    format_disk 8 (bytesOf ['T', 'E', 'S', 'T']) (bytesOf ['0', '1'])
        (.ok ()) (.ok statusNumOk) =
      (.ok statusNumOk,
       sendCommandPetsciiTrace 8
         ((([0x6E, 0x30, 0x3A] ++ bytesOf ['T', 'E', 'S', 'T'] ++ [0x2C]
             ++ bytesOf ['0', '1']).map ascii_to_petscii))
         ++ getStatusTrace 8) :=
  ⟨(C7_format_disk_validation 8 (bytesOf ['T', 'E', 'S', 'T']) (bytesOf ['1'])
      (.ok ()) (.ok statusNumOk)).1 (by decide),
   (C7_format_disk_validation 8 (bytesOf ['T', 'E', 'S', 'T'])
      (bytesOf ['0', '1']) (.ok ()) (.ok statusNumOk)).2
      (by decide) (by decide) rfl⟩

/-! ### C8: CbmDriveUnit::dir status aggregation (code bug)

The claim (and the function's own doc comment, src/drive.rs line 288:
"The CbmStatus will be from the first failure if one occured") says the
first Status error is remembered; the loop body overwrites
`error_status` on every Status error, so the last one is returned. -/

/-- C8: evaluating `CbmDriveUnit::dir` on a dual-drive unit whose two
sub-drives fail with the distinct status errors 74 (first) and 62
(second), with a final OK status check, returns the status of the LAST
failure (62), where the claim and the function's own doc comment require
the first (74). -/
theorem C8_dir_returns_last_status_error :
    CbmDriveUnit.dir 2 dirOracleC8 (.ok statusNumOk) = .ok ([], statusNum62) ∧
    statusNum62 ≠ statusNum74 := by
  constructor
  · rfl
  · decide

/-! ### C1: status-line parsing -/

/-- C1: `CbmStatus::new` strips everything from the first CR onward;
parsing succeeds exactly when the cleaned string is non-empty, splits on
commas into exactly 4 fields, and the three numeric fields (error number,
track, sector) each parse as u8 — the error code being unrecognized never
fails the parse (the parsed `error_number` is just `From<u8>` of the
number, which is `Unknown` for unrecognized codes); every failure is a
Parse error. -/
theorem C1_status_parse_characterization :
    ∀ (status : List Nat) (device : Nat),
      ((∃ st, CbmStatus.new status device = .ok st) ↔
        (cleanStatus status ≠ [] ∧
         (splitOnByte 0x2C (cleanStatus status)).length = 4 ∧
         (parseU8 (trim ((splitOnByte 0x2C (cleanStatus status)).getD 0 []))).isSome = true ∧
         (parseU8 (trim ((splitOnByte 0x2C (cleanStatus status)).getD 2 []))).isSome = true ∧
         (parseU8 (sectorField ((splitOnByte 0x2C (cleanStatus status)).getD 3 []))).isSome = true)) ∧
      (∀ e, CbmStatus.new status device = .error e → e = .Parse) ∧
      (∀ st, CbmStatus.new status device = .ok st →
        st.error_number = CbmErrorNumber.fromU8 st.number ∧ st.device = device) := by
  intro status device
  unfold CbmStatus.new
  by_cases h0 : (cleanStatus status).length = 0
  · have hnil : cleanStatus status = [] := List.length_eq_zero.mp h0
    simp [h0, hnil]
  · simp only [if_neg h0]
    by_cases h4 : (splitOnByte 0x2C (cleanStatus status)).length ≠ 4
    · simp only [if_pos h4]
      simp [h4]
    · simp only [if_neg h4]
      have h4e : (splitOnByte 0x2C (cleanStatus status)).length = 4 := not_not.mp h4
      cases hp0 : parseU8 (trim ((splitOnByte 0x2C (cleanStatus status)).getD 0 [])) with
      | none => simp [hp0, h4e]
      | some number =>
        simp only [hp0]
        cases hp2 : parseU8 (trim ((splitOnByte 0x2C (cleanStatus status)).getD 2 [])) with
        | none => simp [hp2, h4e]
        | some track =>
          simp only [hp2]
          cases hp3 : parseU8 (sectorField ((splitOnByte 0x2C (cleanStatus status)).getD 3 [])) with
          | none => simp [hp3, h4e]
          | some sector =>
            simp only [hp3]
            refine ⟨?_, ?_, ?_⟩
            · simp [h4e]
              intro hc
              exact h0 (by rw [hc]; rfl)
            · intro e he
              simp at he
            · intro st hst
              have : st = ⟨number, CbmErrorNumber.fromU8 number,
                  trim ((splitOnByte 0x2C (cleanStatus status)).getD 1 []),
                  track, sector, device⟩ := by
                injection hst with h
                exact h.symm
              subst this
              exact ⟨rfl, rfl⟩

/-- Claim C1 witness: the line `99,WEIRD,01,02` has four comma fields and
numeric sub-fields, so it parses successfully even though code 99 is
unrecognized, and any parsed status carries `From<u8>` of its number as
`error_number` (which for 99 is the Unknown variant). -/
theorem C1_status_parse_characterization_witness :
    (∃ st, CbmStatus.new statusLine99 8 = .ok st) ∧
    (∀ st, CbmStatus.new statusLine99 8 = .ok st →
      st.error_number = CbmErrorNumber.fromU8 st.number ∧ st.device = 8) ∧
    CbmErrorNumber.fromU8 99 = .Unknown :=
  ⟨(C1_status_parse_characterization statusLine99 8).1.mpr (by decide),
   (C1_status_parse_characterization statusLine99 8).2.2,
   by decide⟩

/-! ### C9: channel allocation invariants -/

/-- A channel returned by the allocation scan is one of the scanned ones. -/
theorem allocateScan_mem {p : CbmChannelPurpose} {l : List Nat}
    {m : ChannelState} {c : Nat}
    (h : (allocateScan p l m).1 = some c) : c ∈ l := by
  induction l with
  | nil => simp [allocateScan] at h
  | cons i is ih =>
    rw [allocateScan] at h
    by_cases hg : m[i]? = some none
    · rw [if_pos hg] at h
      simp only at h
      exact List.mem_cons.mpr (Or.inl (Option.some.inj h).symm)
    · rw [if_neg hg] at h
      exact List.mem_cons_of_mem i (ih h)

/-- The allocation scan returns the first scanned channel whose slot is
free. -/
theorem allocateScan_eq_find (p : CbmChannelPurpose) (l : List Nat) (m : ChannelState) :
    (allocateScan p l m).1 = l.find? (fun i => m[i]? = some none) := by
  induction l with
  | nil => rfl
  | cons i is ih =>
    rw [allocateScan, List.find?_cons]
    by_cases hg : m[i]? = some none
    · simp [hg]
    · simp [hg, ih]

/-- The allocation scan never frees a slot: a slot free afterwards was
free before. -/
theorem allocateScan_free_before {p : CbmChannelPurpose} {l : List Nat}
    {m : ChannelState} (i : Nat)
    (h : ((allocateScan p l m).2)[i]? = some none) : m[i]? = some none := by
  induction l with
  | nil => exact h
  | cons j js ih =>
    rw [allocateScan] at h
    by_cases hg : m[j]? = some none
    · rw [if_pos hg] at h
      simp only at h
      by_cases hij : j = i
      · subst hij
        rw [List.getElem?_set_self', hg] at h
        simp at h
      · rw [List.getElem?_set_ne hij] at h
        exact h
    · rw [if_neg hg] at h
      exact ih h

/-- A successful allocation scan picked a slot that was free and is now
occupied. -/
theorem allocateScan_some {p : CbmChannelPurpose} {l : List Nat}
    {m : ChannelState} {c : Nat}
    (h : (allocateScan p l m).1 = some c) :
    m[c]? = some none ∧
    ((allocateScan p l m).2)[c]? = some (some ⟨c, p⟩) := by
  induction l with
  | nil => simp [allocateScan] at h
  | cons j js ih =>
    rw [allocateScan] at h ⊢
    by_cases hg : m[j]? = some none
    · rw [if_pos hg] at h ⊢
      simp only at h
      have hc : j = c := by simpa using h
      subst hc
      refine ⟨hg, ?_⟩
      simp only
      rw [List.getElem?_set_self', hg]
      rfl
    · rw [if_neg hg] at h ⊢
      exact ih h

/-- A successful `allocate` picked a slot that was free and is now
occupied; the channel is 15 for a Reset allocation and below 15 otherwise. -/
theorem allocate_some {m : ChannelState} {p : CbmChannelPurpose} {c : Nat}
    (h : (allocate m p).1 = some c) :
    m[c]? = some none ∧
    ((allocate m p).2)[c]? = some (some ⟨c, p⟩) ∧
    (p = .Reset → c = 15) ∧ (p ≠ .Reset → c < 15) := by
  by_cases hp : p = .Reset
  · subst hp
    rw [allocate, if_pos rfl] at h ⊢
    by_cases hg : m[15]? = some none
    · rw [if_pos hg] at h ⊢
      simp only at h
      have hc : (15 : Nat) = c := by simpa using h
      subst hc
      refine ⟨hg, ?_, fun _ => rfl, fun hne => absurd rfl hne⟩
      simp only
      rw [List.getElem?_set_self', hg]
      rfl
    · rw [if_neg hg] at h
      simp at h
  · rw [allocate, if_neg hp] at h ⊢
    obtain ⟨h1, h2⟩ := allocateScan_some h
    refine ⟨h1, h2, fun hr => absurd hr hp, fun _ => ?_⟩
    exact List.mem_range.mp (allocateScan_mem h)

/-- `allocate` never frees a slot. -/
theorem allocate_free_before {m : ChannelState} {p : CbmChannelPurpose}
    (i : Nat) (h : ((allocate m p).2)[i]? = some none) :
    m[i]? = some none := by
  by_cases hp : p = .Reset
  · subst hp
    rw [allocate, if_pos rfl] at h
    by_cases hg : m[15]? = some none
    · rw [if_pos hg] at h
      simp only at h
      by_cases hi : (15 : Nat) = i
      · subst hi
        rw [List.getElem?_set_self', hg] at h
        simp at h
      · rw [List.getElem?_set_ne hi] at h
        exact h
    · rw [if_neg hg] at h
      exact h
  · rw [allocate, if_neg hp] at h
    exact allocateScan_free_before i h

/-- Every channel returned by a run of allocations was free in the state
the run started from. -/
theorem runAllocs_mem_free :
    ∀ (ps : List CbmChannelPurpose) (m : ChannelState) (c : Nat),
      some c ∈ (runAllocs m ps).1 → m[c]? = some none := by
  intro ps
  induction ps with
  | nil =>
    intro m c h
    simp [runAllocs] at h
  | cons p ps ih =>
    intro m c h
    rw [runAllocs] at h
    simp only [List.mem_cons] at h
    rcases h with h | h
    · exact (allocate_some h.symm).1
    · exact allocate_free_before c (ih (allocate m p).2 c h)

/-- C9 helper: the channels returned by a run of allocations with no
intervening reset are pairwise distinct. -/
theorem runAllocs_nodup :
    ∀ (ps : List CbmChannelPurpose) (m : ChannelState),
      ((runAllocs m ps).1.filterMap id).Nodup := by
  intro ps
  induction ps with
  | nil =>
    intro m
    simp [runAllocs]
  | cons p ps ih =>
    intro m
    rw [runAllocs]
    simp only
    cases hr : (allocate m p).1 with
    | none =>
      simpa using ih (allocate m p).2
    | some c =>
      simp only [List.filterMap_cons, id]
      refine List.Nodup.cons ?_ (ih (allocate m p).2)
      intro hmem
      have hmem2 : some c ∈ (runAllocs (allocate m p).2 ps).1 := by
        rcases List.mem_filterMap.mp hmem with ⟨a, ha, hid⟩
        cases a with
        | none => simp at hid
        | some b =>
          have hb : b = c := by simpa using hid
          subst hb
          exact ha
      have hfree := runAllocs_mem_free ps (allocate m p).2 c hmem2
      have hocc := (allocate_some hr).2.1
      rw [hocc] at hfree
      simp at hfree

/-- C9: channel-allocation invariants of `CbmChannelManager::allocate`:
(1) a non-Reset allocation never returns channel 15 (it scans channels
0-14 and returns the first free one, so any returned channel is below
15); (2) a non-Reset allocation returns exactly the first free channel
among 0-14, and None exactly when none of 0-14 is free; (3) a Reset
allocation attempts only channel 15; (4) over any sequence of `allocate`
calls starting from a fresh manager with no intervening reset, the
returned channels are pairwise distinct. -/
theorem C9_channel_allocation :
    (∀ (m : ChannelState) (p : CbmChannelPurpose) (c : Nat),
        p ≠ .Reset → (allocate m p).1 = some c → c < 15) ∧
    (∀ (m : ChannelState) (p : CbmChannelPurpose),
        p ≠ .Reset →
        (allocate m p).1 = (List.range 15).find? (fun i => m[i]? = some none)) ∧
    (∀ (m : ChannelState) (p : CbmChannelPurpose),
        p ≠ .Reset →
        ((allocate m p).1 = none ↔ ∀ i < 15, ¬m[i]? = some none)) ∧
    (∀ (m : ChannelState) (c : Nat),
        (allocate m .Reset).1 = some c → c = 15) ∧
    (∀ ps : List CbmChannelPurpose,
        ((runAllocs ChannelState.new ps).1.filterMap id).Nodup) := by
  refine ⟨?_, ?_, ?_, ?_, fun ps => runAllocs_nodup ps ChannelState.new⟩
  · intro m p c hp h
    exact (allocate_some h).2.2.2 hp
  · intro m p hp
    rw [allocate, if_neg hp]
    exact allocateScan_eq_find p (List.range 15) m
  · intro m p hp
    rw [allocate, if_neg hp, allocateScan_eq_find]
    rw [List.find?_eq_none]
    constructor
    · intro h i hi
      have := h i (List.mem_range.mpr hi)
      simpa using this
    · intro h i hi
      have := h i (List.mem_range.mp hi)
      simpa using this
  · intro m c h
    exact (allocate_some h).2.2.1 rfl

/-- Claim C9 witness: from a fresh manager, allocating for file read,
directory, reset and command purposes returns channels 0, 1, 15, 2 —
pairwise distinct, with 15 only for the Reset purpose — and a non-Reset
allocation on a fresh manager returns the first free channel, 0. -/
theorem C9_channel_allocation_witness :
    (allocate ChannelState.new .FileRead).1 =
      (List.range 15).find? (fun i => (ChannelState.new)[i]? = some none) ∧
    ((runAllocs ChannelState.new
        [.FileRead, .Directory, .Reset, .Command]).1.filterMap id).Nodup ∧
    (runAllocs ChannelState.new
        [.FileRead, .Directory, .Reset, .Command]).1 =
      [some 0, some 1, some 15, some 2] :=
  ⟨C9_channel_allocation.2.1 ChannelState.new .FileRead (by decide),
   C9_channel_allocation.2.2.2.2 [.FileRead, .Directory, .Reset, .Command],
   by decide⟩

/-! ### C6: directory-listing parsing (corrected)

`CbmDirListing::parse` can also fail when the header line is present but
malformed, and when a line containing "blocks free" is present but fails
the blocks-free parse (pattern mismatch or u16 overflow), so "fails only
when the header line or the blocks-free line is absent" is too strong. -/

/-- If the file-entry loop fails, some line containing "blocks free"
failed the blocks-free parse, and no earlier line contained it. -/
theorem parseLoop_error {ls : List (List Nat)} {acc : List CbmFileEntry}
    {e : CbmError} (h : parseLoop ls acc = .error e) :
    ∃ pre bf post, ls = pre ++ bf :: post ∧
      (∀ l ∈ pre, containsBlocksFree l = false) ∧
      containsBlocksFree bf = true ∧ parse_blocks_free bf = .error e := by
  induction ls generalizing acc with
  | nil => simp [parseLoop] at h
  | cons l ls ih =>
    rw [parseLoop] at h
    by_cases hc : containsBlocksFree l = true
    · rw [if_pos hc] at h
      cases hp : parse_blocks_free l with
      | error e2 =>
        rw [hp] at h
        have he : e2 = e := by
          simpa using h
        subst he
        exact ⟨[], l, ls, rfl, by simp, hc, hp⟩
      | ok n =>
        rw [hp] at h
        simp at h
    · rw [if_neg hc] at h
      obtain ⟨pre, bf, post, heq, hpre, hbf, herr⟩ := ih h
      refine ⟨l :: pre, bf, post, by rw [heq]; rfl, ?_, hbf, herr⟩
      intro x hx
      rcases List.mem_cons.mp hx with hx | hx
      · subst hx
        exact Bool.not_eq_true _ ▸ hc
      · exact hpre x hx

/-- If the file-entry loop ends without a blocks-free value, no line
contained "blocks free". -/
theorem parseLoop_none {ls : List (List Nat)} {acc : List CbmFileEntry}
    (h : parseLoop ls acc = .ok none) :
    ∀ l ∈ ls, containsBlocksFree l = false := by
  induction ls generalizing acc with
  | nil =>
    intro l hl
    simp at hl
  | cons l ls ih =>
    rw [parseLoop] at h
    by_cases hc : containsBlocksFree l = true
    · rw [if_pos hc] at h
      cases hp : parse_blocks_free l with
      | error e2 => rw [hp] at h; simp at h
      | ok n => rw [hp] at h; simp at h
    · rw [if_neg hc] at h
      intro x hx
      rcases List.mem_cons.mp hx with hx | hx
      · subst hx
        exact Bool.not_eq_true _ ▸ hc
      · exact ih h x hx

/-- If some line contains "blocks free" and parses, the loop succeeds,
mapping every earlier line through `parse_file_entry` — malformed file
lines never abort it. -/
theorem parseLoop_ok {pre : List (List Nat)} {bf : List Nat}
    {post : List (List Nat)} {n : Nat}
    (hpre : ∀ l ∈ pre, containsBlocksFree l = false)
    (hbf : containsBlocksFree bf = true)
    (hok : parse_blocks_free bf = .ok n) :
    ∀ acc, parseLoop (pre ++ bf :: post) acc =
      .ok (some (acc ++ pre.map parse_file_entry, n)) := by
  induction pre with
  | nil =>
    intro acc
    rw [List.nil_append, parseLoop, if_pos hbf, hok]
    simp
  | cons l pre2 ih =>
    intro acc
    have hl : containsBlocksFree l = false := hpre l (List.mem_cons_self l pre2)
    rw [List.cons_append, parseLoop, if_neg (by simp [hl])]
    rw [ih (fun x hx => hpre x (List.mem_cons_of_mem l hx))]
    simp

/-- C6 (amended): `CbmDirListing::parse` fails exactly in these cases:
there is no first line; the first line is present but fails header
parsing; no line contains "blocks free"; or the first line containing
"blocks free" fails blocks-free parsing (pattern mismatch or u16
overflow). When the header parses and the first "blocks free" line
parses, the parse succeeds and every intervening line — malformed or not
— is mapped through `parse_file_entry`, so malformed file lines never
abort the parse. -/
theorem C6_dir_parse_amended :
    ∀ input : List Nat,
      (∀ e, CbmDirListing.parse input = .error e →
        linesOf input = [] ∨
        (∃ first rest, linesOf input = first :: rest ∧
          ∃ e2, parse_header first = .error e2) ∨
        (∃ first rest, linesOf input = first :: rest ∧
          ∀ l ∈ rest, containsBlocksFree l = false) ∨
        (∃ first rest pre bf post, linesOf input = first :: rest ∧
          rest = pre ++ bf :: post ∧
          (∀ l ∈ pre, containsBlocksFree l = false) ∧
          containsBlocksFree bf = true ∧
          ∃ e2, parse_blocks_free bf = .error e2)) ∧
      (∀ (first : List Nat) (rest pre : List (List Nat)) (bf : List Nat)
          (post : List (List Nat)) (hdr : CbmDiskHeader) (n : Nat),
        linesOf input = first :: rest →
        parse_header first = .ok hdr →
        rest = pre ++ bf :: post →
        (∀ l ∈ pre, containsBlocksFree l = false) →
        containsBlocksFree bf = true →
        parse_blocks_free bf = .ok n →
        CbmDirListing.parse input = .ok ⟨hdr, pre.map parse_file_entry, n⟩) := by
  intro input
  constructor
  · intro e he
    rw [CbmDirListing.parse] at he
    cases hl : linesOf input with
    | nil =>
      left
      rfl
    | cons first rest =>
      rw [hl] at he
      cases hh : parse_header first with
      | error e2 =>
        right; left
        exact ⟨first, rest, rfl, e2, hh⟩
      | ok hdr =>
        simp only [hh] at he
        cases hpl : parseLoop rest [] with
        | error e2 =>
          right; right; right
          obtain ⟨pre, bf, post, heq, hpre, hbf, herr⟩ := parseLoop_error hpl
          exact ⟨first, rest, pre, bf, post, rfl, heq, hpre, hbf, e2, herr⟩
        | ok o =>
          cases o with
          | none =>
            right; right; left
            exact ⟨first, rest, rfl, parseLoop_none hpl⟩
          | some r =>
            simp only [hpl] at he
            rcases r with ⟨files, bfn⟩
            simp at he
  · intro first rest pre bf post hdr n hl hh hrest hpre hbf hn
    rw [CbmDirListing.parse, hl]
    simp only [hh]
    rw [hrest]
    simp only [parseLoop_ok hpre hbf hn []]
    simp

/-- Claim C6 counterexample: on the input `0 ."disk" 01` newline
`70000 blocks free.` the header line is present and parses, a line
containing "blocks free" is present, yet the parse fails (the free-block
count 70000 overflows u16) — refuting "fails only when the header line
or the blocks-free line is absent". -/
theorem C6_dir_parse_counterexample :
    CbmDirListing.parse dirOverflowInput = .error .Parse ∧
    linesOf dirOverflowInput = [dirHeaderLine, dirOverflowBlocksLine] ∧
    parse_header dirHeaderLine =
      .ok ⟨0, bytesOf ['d', 'i', 's', 'k'], bytesOf ['0', '1']⟩ ∧
    containsBlocksFree dirOverflowBlocksLine = true := by
  refine ⟨by decide, by decide, by decide, by decide⟩

/-- Claim C6 witness: on `dirGoodInput` (header, a malformed line, a valid
file line, a blocks-free line) the parse succeeds with both intervening
lines mapped through `parse_file_entry`; the malformed one is salvaged as
an `InValidFile` entry and does not abort the parse. -/
theorem C6_dir_parse_amended_witness :
    CbmDirListing.parse dirGoodInput =
      .ok ⟨⟨0, bytesOf ['d', 'i', 's', 'k'], bytesOf ['0', '1']⟩,
        [dirBadLine, dirProgLine].map parse_file_entry, 664⟩ ∧
    parse_file_entry dirBadLine =
      .inValidFile dirBadLine .CouldNotParseLineFormat none none :=
  ⟨(C6_dir_parse_amended dirGoodInput).2 dirHeaderLine
      [dirBadLine, dirProgLine, dirBlocksLine] [dirBadLine, dirProgLine]
      dirBlocksLine [] ⟨0, bytesOf ['d', 'i', 's', 'k'], bytesOf ['0', '1']⟩ 664
      (by decide) (by decide) (by decide) (by decide) (by decide) (by decide),
   by decide⟩

end Rs1541
